import Mathlib

/-!
Verification development for the Cinematch data-acquisition layer
(`src/scrapers/base_scraper.py`, `src/scrapers/wikipedia_scraper.py`,
`src/scrapers/adult_content_scraper.py`, `src/api_integrations/omdb_client.py`,
`src/api_integrations/tmdb_client.py`, `src/api_integrations/youtube_client.py`).

The Python code is shallowly embedded: dictionaries become association lists
over a scalar `Value` type, the Postgres store becomes an explicit list of
rows, timestamps become natural numbers, and each fallible step returns
`Except String`/`Option` mirroring the `try/except` structure of the source.
External HTTP calls are modelled as oracle parameters of type
`Except String _` (the spec places provider wire formats out of scope);
everything the repository itself computes is translated function by function.
-/

/-- A JSON-style scalar value as stored in the scraped-record dictionaries.
`q` models a Python float by an exact rational; every numeric literal the
verified claims touch (142, 12 000 000, 3 000 000 000) is exactly
representable as an IEEE double, so the rational model agrees with CPython
on those inputs.  `nul` is Python's `None`. -/
inductive Value where
  | s (str : String)
  | i (int : Int)
  | q (rat : Rat)
  | nul
deriving DecidableEq

/-- A Python dict with string keys, in insertion order (no duplicate keys). -/
abbrev Record := List (String × Value)

/-- Python dict assignment `d[k] = v`: overwrite the value at an existing key
in place, otherwise append the new key at the end. -/
def dictInsert (k : String) (v : Value) : Record → Record
  | [] => [(k, v)]
  | (k', v') :: rest => if k' = k then (k, v) :: rest else (k', v') :: dictInsert k v rest

/-- Build a dict from a literal / `**`-merge list of pairs, later pairs
overriding earlier ones (Python dict-literal semantics). -/
def dictFromPairs (pairs : List (String × Value)) : Record :=
  pairs.foldl (fun acc kv => dictInsert kv.1 kv.2 acc) []

/-- Python truthiness of the scalar values that appear in the scrapers. -/
def truthy : Value → Bool
  | .s str => str ≠ ""
  | .i n => n ≠ 0
  | .q x => x ≠ 0
  | .nul => false

/-- Python's `\s` character class (`[ \t\n\r\v\f]`, ASCII). -/
def pyIsSpace (c : Char) : Bool :=
  c = ' ' || c = '\t' || c = '\n' || c = '\r' || c = '\x0b' || c = '\x0c'

/-- One pass of `re.sub(r'\s+', ' ', ·)`: each maximal whitespace run becomes
a single space.  The boolean tracks whether the previous character was part
of a whitespace run. -/
def collapseWsAux : List Char → Bool → List Char
  | [], _ => []
  | c :: rest, prevSpace =>
    if pyIsSpace c then
      if prevSpace then collapseWsAux rest true
      else ' ' :: collapseWsAux rest true
    else c :: collapseWsAux rest false

/-- Python `re.sub(r'\s+', ' ', s)`. -/
def collapseWs (s : String) : String := ⟨collapseWsAux s.data false⟩

/-- Python `str.strip()` (no argument): drop leading and trailing whitespace. -/
def pyStrip (s : String) : String :=
  ⟨((s.data.dropWhile pyIsSpace).reverse.dropWhile pyIsSpace).reverse⟩

/-- Python `str.lower()` restricted to ASCII, which is all the repository's
matching logic relies on. -/
def strLower (s : String) : String := ⟨s.data.map Char.toLower⟩

/-- Does `pat` occur at the start of `l`? -/
def listStartsWith : List Char → List Char → Bool
  | _, [] => true
  | [], _ :: _ => false
  | c :: cs, d :: ds => c = d && listStartsWith cs ds

/-- Does `pat` occur anywhere in `l` (Python `pat in s`, SQL `LIKE '%pat%'`)? -/
def listContainsSub (l pat : List Char) : Bool :=
  listStartsWith l pat ||
    match l with
    | [] => false
    | _ :: rest => listContainsSub rest pat

/-- Substring test used for Python `in` and SQL `LIKE/ILIKE '%…%'` patterns
(the repository only ever interpolates plain words, so SQL wildcard
characters inside the needle do not arise). -/
def strContains (s sub : String) : Bool := listContainsSub s.data sub.data

/-- Python `str.replace(',', '')`. -/
def stripCommas (s : String) : String := ⟨s.data.filter (fun c => c ≠ ',')⟩

/-- Python `str.replace('\n', ' ')`. -/
def newlinesToSpaces (s : String) : String :=
  ⟨s.data.map (fun c => if c = '\n' then ' ' else c)⟩

/-- Decimal digits to a natural number (most significant first). -/
def digitsToNat (l : List Char) : Nat :=
  l.foldl (fun acc c => acc * 10 + (c.toNat - 48)) 0

/-- Python `int(s)` on a string: optional sign, then one or more decimal
digits, surrounding whitespace allowed; anything else raises `ValueError`
(modelled as `none`). -/
def pyIntOfString (s : String) : Option Int :=
  let t := (pyStrip s).data
  let signAndDigits : Int × List Char :=
    match t with
    | '-' :: rest => (-1, rest)
    | '+' :: rest => (1, rest)
    | l => (1, l)
  if signAndDigits.2 ≠ [] ∧ signAndDigits.2.all Char.isDigit then
    some (signAndDigits.1 * (digitsToNat signAndDigits.2 : Int))
  else none

/-- Python `float(s)` on the unsigned tokens produced by the scrapers'
number regexes: digits, with at most one decimal point and at least one
digit somewhere.  Returns `none` where CPython raises `ValueError`. -/
def pyFloatOfString (s : String) : Option Rat :=
  let t := pyStrip s
  match t.data.splitOn '.' with
  | [ip] =>
      if ip ≠ [] ∧ ip.all Char.isDigit then some ((digitsToNat ip : Int) : Rat) else none
  | [ip, fp] =>
      if (ip ++ fp) ≠ [] ∧ ip.all Char.isDigit ∧ fp.all Char.isDigit then
        some ((digitsToNat ip : Rat) + (digitsToNat fp : Rat) / ((10 : Rat) ^ fp.length))
      else none
  | _ => none

/-- Truncation toward zero, Python `int(float)`. -/
def ratTrunc (x : Rat) : Int := if x < 0 then -(⌊-x⌋) else ⌊x⌋

/-- Python `int(v)` on a scraped scalar: identity on ints, string parse on
strings, truncation on floats, `TypeError` (`none`) on `None`. -/
def pyIntOfValue : Value → Option Int
  | .i n => some n
  | .s str => pyIntOfString str
  | .q x => some (ratTrunc x)
  | .nul => none

/-- Text adaptation of a scalar when it is written to a text column. -/
def valueText : Value → String
  | .s str => str
  | .i n => toString n
  | .q x => toString x
  | .nul => "None"

/-! ## The deduplicating store (`scraped_movie_data`) and the content hash -/

/-- The canonical key-sorted form of a record: the distinct keys in
lexicographic order, each paired with its looked-up value. -/
abbrev CanonForm := List (String × Option Value)

/-- The distinct keys of a record, sorted (what `json.dumps(…, sort_keys=True)`
iterates over). -/
def sortedKeys (r : Record) : List String :=
  List.insertionSort (· ≤ ·) (r.map Prod.fst).dedup

/-- From `base_scraper.py:94-96`: `hashlib.sha256(json.dumps(data, sort_keys=True)
.encode()).hexdigest()`.  The SHA-256 of the canonical key-sorted JSON text is
modelled by the canonical key-sorted association list itself: like the real
hash it is a deterministic function of the canonicalized record, and it is
injective on distinct records exactly as the design assumes the digest to be
(collisions are ignored, as the dedup design itself ignores them). -/
def contentHash (r : Record) : CanonForm :=
  (sortedKeys r).map fun k => (k, r.lookup k)

/-- One row of the `scraped_movie_data` table. -/
structure Row where
  sourceSite : String
  movieTitle : String
  year : Option Int
  dataType : String
  rawData : Record
  processedData : Record
  dataHash : CanonForm
  scrapedAt : Nat
deriving DecidableEq

/-- The `ON CONFLICT` unique key `(source_site, movie_title, data_type, data_hash)`. -/
def rowKey (r : Row) : String × String × String × CanonForm :=
  (r.sourceSite, r.movieTitle, r.dataType, r.dataHash)

/-- Python `data.get('title', 'Unknown')` as the text stored in `movie_title`. -/
def titleOf (d : Record) : String :=
  match d.lookup "title" with
  | some v => valueText v
  | none => "Unknown"

/-- Python `data.get('data_type', 'general')`. -/
def dataTypeOf (d : Record) : String :=
  match d.lookup "data_type" with
  | some v => valueText v
  | none => "general"

/-- Python `data.get('year')` adapted to the integer `year` column. -/
def yearOf (d : Record) : Option Int :=
  (d.lookup "year").bind pyIntOfValue

/-- Embeds `BaseScraper._save_to_database` (`base_scraper.py:84-124`): insert a row
keyed by `(source_site, movie_title, data_type, data_hash)`; on conflict only
refresh `scraped_at` to the current timestamp (`now`).  `site` is
`self.target_config['name']`, `process` is the subclass's `_process_data`
(on the records the claims quantify over it returns normally; a raising
processor would abort the save before any write). -/
def BaseScraper.saveToDatabase (site : String) (process : Record → Record)
    (now : Nat) (table : List Row) (d : Record) : List Row :=
  let h := contentHash d
  let k : String × String × String × CanonForm := (site, titleOf d, dataTypeOf d, h)
  if table.any (fun r => rowKey r = k) then
    table.map fun r => if rowKey r = k then { r with scrapedAt := now } else r
  else
    table ++ [{ sourceSite := site, movieTitle := titleOf d, year := yearOf d,
                dataType := dataTypeOf d, rawData := d, processedData := process d,
                dataHash := h, scrapedAt := now }]

/-! ## SQL helpers shared by the fallback queries -/

/-- SQL `ORDER BY scraped_at DESC LIMIT 1` over an unordered result set: the row
with the greatest `scraped_at` (first such row on ties, which SQL leaves
unspecified). -/
def pickLater (acc : Option Row) (r : Row) : Option Row :=
  match acc with
  | none => some r
  | some b => if b.scrapedAt < r.scrapedAt then some r else some b

/-- Most recently scraped row of a result set, if any. -/
def latestBy (rows : List Row) : Option Row := rows.foldl pickLater none

/-- Python truthiness of the optional `year` argument (`if year:`):
`None` and `0` both disable the year filter. -/
def yearTruthy : Option Int → Bool
  | some n => n ≠ 0
  | none => false

/-! ## OMDb client (`omdb_client.py`) -/

/-- State of an `OMDBClient` after `__init__`: `api_key` is
`os.getenv('OMDB_API_KEY', '').strip()`, `enabled = bool(api_key)`,
`dbConfig` records whether a `db_config` was supplied. -/
structure OMDBClient where
  apiKey : String
  enabled : Bool
  dbConfig : Bool

/-- Embeds `OMDBClient.__init__` with the credential environment variable set to
`envApiKey` (absent ⇒ `""`). -/
def mkOMDBClient (envApiKey : String) (hasDb : Bool) : OMDBClient :=
  let key := pyStrip envApiKey
  { apiKey := key, enabled := key != "", dbConfig := hasDb }

/-- The `data_type IN (…)` filter of `_get_from_scraped_data`. -/
def omdbDataTypes : List String := ["film_details", "box_office", "award"]

/-- The WHERE clause of `_get_from_scraped_data` (`omdb_client.py:183-199`):
case-insensitive exact title equality, the year equation only when the
supplied year is truthy, and the fixed `data_type` set. -/
def omdbFilter (title : String) (year : Option Int) (r : Row) : Bool :=
  (strLower r.movieTitle == strLower title) &&
  (if yearTruthy year then r.year == year else true) &&
  omdbDataTypes.contains r.dataType

/-- The result dict built at `omdb_client.py:208-214`: provenance, title and
year from the row, then `**processed`, then `scraped_at` (Python dict-merge
semantics, later keys overriding). -/
def omdbScrapedResult (row : Row) : Record :=
  dictFromPairs
    ([("source", Value.s ("Scraped from " ++ row.sourceSite)),
      ("title", Value.s row.movieTitle),
      ("year", match row.year with | some y => Value.i y | none => Value.nul)]
      ++ row.processedData
      ++ [("scraped_at", Value.s (toString row.scrapedAt))])

/-- Embeds `OMDBClient._get_from_scraped_data` (`omdb_client.py:165-219`).
`dbOk = false` models the `except` path (any database error is caught,
logged, and turned into `None`); without a `db_config` the query is skipped. -/
def omdbGetFromScrapedData (dbConfig dbOk : Bool) (table : List Row)
    (title : String) (year : Option Int) : Option Record :=
  if !dbConfig then none
  else if !dbOk then none
  else
    match latestBy (table.filter (omdbFilter title year)) with
    | none => none
    | some row => some (omdbScrapedResult row)

/-- Embeds `OMDBClient.search_movie` (`omdb_client.py:37-72`).  `apiTry` is the
outcome of the whole guarded API attempt (request + JSON decode +
`_format_api_response`): `.ok (some r)` when the provider answered
`Response == 'True'` and formatting succeeded, `.ok none` when the provider
answered but not with a usable hit, `.error` for any raised exception
(timeout, non-2xx, malformed payload) — all of which `except Exception`
catches before the scraped-data fallback runs. -/
def OMDBClient.searchMovie (c : OMDBClient) (apiTry : Except String (Option Record))
    (dbOk : Bool) (table : List Row) (title : String) (year : Option Int) :
    Option Record :=
  if c.enabled then
    match apiTry with
    | .ok (some formatted) => some formatted
    | .ok none => omdbGetFromScrapedData c.dbConfig dbOk table title year
    | .error _ => omdbGetFromScrapedData c.dbConfig dbOk table title year
  else omdbGetFromScrapedData c.dbConfig dbOk table title year

/-- Embeds `OMDBClient.get_movie_by_imdb_id` (`omdb_client.py:74-103`): same guarded
API attempt; the fallback comment notwithstanding, the non-API path returns
`None` without querying the store. -/
def OMDBClient.getMovieByImdbId (c : OMDBClient)
    (apiTry : Except String (Option Record)) : Option Record :=
  if c.enabled then
    match apiTry with
    | .ok (some formatted) => some formatted
    | .ok none => none
    | .error _ => none
  else none

/-- Embeds `OMDBClient.get_poster` (`omdb_client.py:105-135`): returns the built URL
when the HEAD probe answers 200, `None` on any other status or exception, and
`None` immediately when disabled. -/
def OMDBClient.getPoster (c : OMDBClient) (apiTry : Except String (Option String)) :
    Option String :=
  if c.enabled then
    match apiTry with
    | .ok r => r
    | .error _ => none
  else none

/-! ## TMDb client (`tmdb_client.py`) -/

/-- State of a `TMDbClient` after `__init__`: two credential options, enabled
iff either is non-empty after stripping. -/
structure TMDbClient where
  apiKey : String
  readAccessToken : String
  enabled : Bool
  dbConfig : Bool

/-- Embeds `TMDbClient.__init__` with the two credential environment variables. -/
def mkTMDbClient (envKey envToken : String) (hasDb : Bool) : TMDbClient :=
  let k := pyStrip envKey
  let t := pyStrip envToken
  { apiKey := k, readAccessToken := t, enabled := (k != "") || (t != ""), dbConfig := hasDb }

/-- The WHERE clause of `_search_scraped_data` (`tmdb_client.py:248-262`):
`movie_title ILIKE '%query%'` — case-insensitive substring containment, not
exact equality — plus the year equation when the year argument is truthy. -/
def tmdbFilter (query : String) (year : Option Int) (r : Row) : Bool :=
  strContains (strLower r.movieTitle) (strLower query) &&
  (if yearTruthy year then r.year == year else true)

/-- The `ORDER BY movie_title, scraped_at DESC` comparison used with
`DISTINCT ON (movie_title)`. -/
def tmdbLe (a b : Row) : Bool :=
  a.movieTitle < b.movieTitle || (a.movieTitle == b.movieTitle && b.scrapedAt ≤ a.scrapedAt)

/-- SQL `DISTINCT ON (movie_title)` after the sort: keep the first row of each
title group. -/
def keepFirstByTitle : List Row → List String → List Row
  | [], _ => []
  | r :: rest, seen =>
    if seen.contains r.movieTitle then keepFirstByTitle rest seen
    else r :: keepFirstByTitle rest (r.movieTitle :: seen)

/-- Embeds `_format_scraped_result` (`tmdb_client.py:297-308`). -/
def tmdbFormatScrapedResult (row : Row) : Record :=
  dictFromPairs
    ([("source", Value.s ("Scraped from " ++ row.sourceSite)),
      ("title", Value.s row.movieTitle),
      ("year", match row.year with | some y => Value.i y | none => Value.nul)]
      ++ row.processedData)

/-- Embeds `TMDbClient._search_scraped_data` (`tmdb_client.py:239-270`): the
`SELECT DISTINCT ON (movie_title) … ORDER BY movie_title, scraped_at DESC
LIMIT 20` query over the ILIKE filter; errors and a missing `db_config` both
yield `[]`. -/
def tmdbSearchScraped (dbConfig dbOk : Bool) (table : List Row)
    (query : String) (year : Option Int) : List Record :=
  if !dbConfig then []
  else if !dbOk then []
  else
    ((keepFirstByTitle
        (List.insertionSort (fun a b => tmdbLe a b = true)
          (table.filter (tmdbFilter query year))) []).take 20).map
      tmdbFormatScrapedResult

/-- Embeds `TMDbClient.search_movies` (`tmdb_client.py:45-80`): guarded API attempt,
with the scraped-data search as the fallback on any exception or when
disabled.  (A successful API reply returns the formatted result list without
consulting the store.) -/
def TMDbClient.searchMovies (c : TMDbClient) (apiTry : Except String (List Record))
    (dbOk : Bool) (table : List Row) (query : String) (year : Option Int) :
    List Record :=
  if c.enabled then
    match apiTry with
    | .ok results => results
    | .error _ => tmdbSearchScraped c.dbConfig dbOk table query year
  else tmdbSearchScraped c.dbConfig dbOk table query year

/-- Embeds `TMDbClient.get_movie_details` (`tmdb_client.py:82-110`): no store
fallback — `None` on exception or when disabled. -/
def TMDbClient.getMovieDetails (c : TMDbClient)
    (apiTry : Except String (Option Record)) : Option Record :=
  if c.enabled then
    match apiTry with
    | .ok r => r
    | .error _ => none
  else none

/-! ## YouTube client (`youtube_client.py`) -/

/-- State of a `YouTubeClient` after `__init__`. -/
structure YouTubeClient where
  apiKey : String
  enabled : Bool
  dbConfig : Bool

/-- Embeds `YouTubeClient.__init__`. -/
def mkYouTubeClient (envApiKey : String) (hasDb : Bool) : YouTubeClient :=
  let key := pyStrip envApiKey
  { apiKey := key, enabled := key != "", dbConfig := hasDb }

/-- Quote a string as `json.dumps` renders it (escaping is omitted: the only
use is the case-sensitive `LIKE '%youtube%' / '%trailer%'` probe, and JSON
escaping cannot create or destroy those substrings). -/
def jsonQuote (s : String) : String := "\"" ++ s ++ "\""

/-- Render a scalar as it appears inside the stored `processed_data` JSON text. -/
def jsonValue : Value → String
  | .s str => jsonQuote str
  | .i n => toString n
  | .q x => toString x
  | .nul => "null"

/-- Glue pieces with a separator. -/
def joinPieces (sep : String) : List String → String
  | [] => ""
  | [x] => x
  | x :: y :: rest => x ++ sep ++ joinPieces sep (y :: rest)

/-- The `processed_data::text` JSON column value probed by the SQL LIKE filter. -/
def jsonDumps (r : Record) : String :=
  "\x7b" ++ joinPieces ", " (r.map fun kv => jsonQuote kv.1 ++ ": " ++ jsonValue kv.2) ++ "\x7d"

/-- Render a scalar as Python `str(dict)` does (single quotes, `None`). -/
def pyReprValue : Value → String
  | .s str => "\x27" ++ str ++ "\x27"
  | .i n => toString n
  | .q x => toString x
  | .nul => "None"

/-- Python `str(processed)` — the text the YouTube-id regex is run over. -/
def pyReprDict (r : Record) : String :=
  "\x7b" ++ joinPieces ", " (r.map fun kv => "\x27" ++ kv.1 ++ "\x27: " ++ pyReprValue kv.2) ++ "\x7d"

/-- The WHERE clause of `_get_scraped_trailer` (`youtube_client.py:214-232`):
case-insensitive exact title equality, the truthy-year equation, and the
case-sensitive `LIKE` probes on the serialized `processed_data`. -/
def ytFilter (title : String) (year : Option Int) (r : Row) : Bool :=
  (strLower r.movieTitle == strLower title) &&
  (if yearTruthy year then r.year == year else true) &&
  (strContains (jsonDumps r.processedData) "youtube" ||
   strContains (jsonDumps r.processedData) "trailer")

/-- Characters of a YouTube video id (`[a-zA-Z0-9_-]`). -/
def isYtIdChar (c : Char) : Bool := c.isAlphanum || c = '_' || c = '-'

/-- Try the regex `(?:youtube\.com/watch\?v=|youtu\.be/)([a-zA-Z0-9_-]{11})`
anchored at the head of `l`. -/
def ytIdAt (l : List Char) : Option (List Char) :=
  let after : Option (List Char) :=
    if listStartsWith l "youtube.com/watch?v=".data then some (l.drop 20)
    else if listStartsWith l "youtu.be/".data then some (l.drop 9)
    else none
  match after with
  | none => none
  | some rest =>
    let ds := rest.takeWhile isYtIdChar
    if 11 ≤ ds.length then some (ds.take 11) else none

/-- Leftmost match of the YouTube-id regex. -/
def findYtIdAux : List Char → Option (List Char)
  | [] => none
  | c :: rest =>
    match ytIdAt (c :: rest) with
    | some found => some found
    | none => findYtIdAux rest

/-- Python `re.search(youtube_pattern, text)` returning group 1. -/
def findYouTubeId (s : String) : Option String :=
  (findYtIdAux s.data).map fun l => ⟨l⟩

/-- Embeds `YouTubeClient._get_scraped_trailer` (`youtube_client.py:205-260`):
select the most recently scraped matching row, then extract a YouTube video
id from `str(processed_data)`; `None` when nothing matches, no id is found,
the db is missing, or any exception was caught. -/
def YouTubeClient.getScrapedTrailer (dbConfig dbOk : Bool) (table : List Row)
    (movieTitle : String) (year : Option Int) : Option Record :=
  if !dbConfig then none
  else if !dbOk then none
  else
    match latestBy (table.filter (ytFilter movieTitle year)) with
    | none => none
    | some row =>
      match findYouTubeId (pyReprDict row.processedData) with
      | none => none
      | some vid =>
        some (dictFromPairs
          [("source", Value.s ("Scraped from " ++ row.sourceSite)),
           ("video_id", Value.s vid),
           ("title", Value.s (movieTitle ++ " - Trailer")),
           ("url", Value.s ("https://www.youtube.com/watch?v=" ++ vid)),
           ("scraped_at", Value.s (toString row.scrapedAt))])

/-- Embeds `YouTubeClient.search_movie_trailer` (`youtube_client.py:36-103`): guarded
API attempt (`.ok none` = the search returned no items), falling through to
the scraped-trailer lookup on no items, exception, or disabled client. -/
def YouTubeClient.searchMovieTrailer (c : YouTubeClient)
    (apiTry : Except String (Option Record)) (dbOk : Bool) (table : List Row)
    (movieTitle : String) (year : Option Int) : Option Record :=
  if c.enabled then
    match apiTry with
    | .ok (some r) => some r
    | .ok none => YouTubeClient.getScrapedTrailer c.dbConfig dbOk table movieTitle year
    | .error _ => YouTubeClient.getScrapedTrailer c.dbConfig dbOk table movieTitle year
  else YouTubeClient.getScrapedTrailer c.dbConfig dbOk table movieTitle year

/-! ## Regex scanners used by the `_process_data` normalizers -/

/-- A character matched by `[\d,]`. -/
def isDigitOrComma (c : Char) : Bool := c.isDigit || c = ','

/-- Match `[\d,]+\.?\d*` anchored at the head of `l` (greedy, as the pattern
has no profitable backtracking). -/
def numTokenAt (l : List Char) : Option (List Char) :=
  let t1 := l.takeWhile isDigitOrComma
  if t1 = [] then none
  else
    match l.dropWhile isDigitOrComma with
    | '.' :: r2 => some (t1 ++ '.' :: r2.takeWhile Char.isDigit)
    | _ => some t1

/-- Leftmost match, i.e. `re.findall(r'[\d,]+\.?\d*', s)[0]` when a match
exists (`wikipedia_scraper.py:505-508` only uses the first). -/
def findNumberTokenAux : List Char → Option (List Char)
  | [] => none
  | c :: rest =>
    match numTokenAt (c :: rest) with
    | some t => some t
    | none => findNumberTokenAux rest

/-- First `[\d,]+\.?\d*` token of `s`, if any. -/
def findNumberToken (s : String) : Option String :=
  (findNumberTokenAux s.data).map fun l => ⟨l⟩

/-- Match `(\d+)\s*min` anchored at the head of `l`, returning the digit
group.  (Backtracking a shorter `\d+` cannot help: the next character would
still be a digit, which neither `\s` nor `m` matches.) -/
def runtimeMatchAt (l : List Char) : Option Nat :=
  let ds := l.takeWhile Char.isDigit
  if ds = [] then none
  else
    if listStartsWith ((l.dropWhile Char.isDigit).dropWhile pyIsSpace) "min".data then
      some (digitsToNat ds)
    else none

/-- Python `re.search(r'(\d+)\s*min', s)`: leftmost match. -/
def findRuntimeAux : List Char → Option Nat
  | [] => none
  | c :: rest =>
    match runtimeMatchAt (c :: rest) with
    | some n => some n
    | none => findRuntimeAux rest

/-- Integer minutes extracted from a runtime string (`wikipedia_scraper.py:525`). -/
def findRuntimeMinutes (s : String) : Option Nat := findRuntimeAux s.data

/-- Does `re.sub(r'\s*-\s*(DVD|Blu-ray|4K).*$', '', ·)`'s pattern match at the
head of `l`? -/
def formatSuffixAt (l : List Char) : Bool :=
  match l.dropWhile pyIsSpace with
  | '-' :: r2 =>
    let r3 := r2.dropWhile pyIsSpace
    listStartsWith r3 "DVD".data || listStartsWith r3 "Blu-ray".data ||
      listStartsWith r3 "4K".data
  | _ => false

/-- Delete everything from the leftmost format-suffix match to the end. -/
def removeFormatSuffixAux : List Char → List Char
  | [] => []
  | c :: rest =>
    if formatSuffixAt (c :: rest) then []
    else c :: removeFormatSuffixAux rest

/-- Python `re.sub(r'\s*-\s*(DVD|Blu-ray|4K).*$', '', s)` (`adult_content_scraper.py:369`). -/
def removeFormatSuffix (s : String) : String := ⟨removeFormatSuffixAux s.data⟩

/-- A character matched by `[\$£€¥]`. -/
def isCurrency (c : Char) : Bool := c = '$' || c = '£' || c = '€' || c = '¥'

/-- Match `[\$£€¥]?(\d+\.?\d*)` anchored at the head of `l`, returning
group 1. -/
def priceGroupAt (l : List Char) : Option (List Char) :=
  let body :=
    match l with
    | c :: rest => if isCurrency c then rest else l
    | [] => []
  let ds := body.takeWhile Char.isDigit
  if ds = [] then none
  else
    match body.dropWhile Char.isDigit with
    | '.' :: r2 => some (ds ++ '.' :: r2.takeWhile Char.isDigit)
    | _ => some ds

/-- Python `re.search(r'[\$£€¥]?(\d+\.?\d*)', s)`: leftmost match. -/
def findPriceAux : List Char → Option (List Char)
  | [] => none
  | c :: rest =>
    match priceGroupAt (c :: rest) with
    | some g => some g
    | none => findPriceAux rest

/-- Numeric price extracted at `adult_content_scraper.py:376-378` (the matched
group always parses, so `float` cannot fail there). -/
def findPriceNumber (s : String) : Option Rat :=
  (findPriceAux s.data).bind fun l => pyFloatOfString ⟨l⟩

/-! ## `AdultContentScraper._process_data` (`adult_content_scraper.py:348-390`) -/

/-- Title cleanup: whitespace collapse, strip, then format-suffix removal. -/
def cleanAdultTitle (t : String) : String :=
  removeFormatSuffix (pyStrip (collapseWs t))

/-- The `if 'title' in processed:` block; `re.sub` on a non-string raises
`TypeError`, which nothing in `_process_data` catches. -/
def adultTitleStep (p : Record) : Except String Record :=
  match p.lookup "title" with
  | none => Except.ok p
  | some (Value.s t) => Except.ok (dictInsert "title" (Value.s (cleanAdultTitle t)) p)
  | some _ => Except.error "TypeError: expected string or bytes-like object"

/-- The `if 'price' in processed and processed['price']:` block. -/
def adultPriceStep (p : Record) : Except String Record :=
  match p.lookup "price" with
  | none => Except.ok p
  | some v =>
    if truthy v then
      match v with
      | Value.s pr =>
        Except.ok
          (match findPriceNumber pr with
           | some amt => dictInsert "price_numeric" (Value.q amt) p
           | none => p)
      | _ => Except.error "TypeError: expected string or bytes-like object"
    else Except.ok p

/-- The year-coercion block shared by both `_process_data` variants:
`int(…)` failures are caught by `except (ValueError, TypeError): pass`. -/
def yearCoerceStep (p : Record) : Record :=
  match p.lookup "year" with
  | none => p
  | some v =>
    if truthy v then
      match pyIntOfValue v with
      | some n => dictInsert "year" (Value.i n) p
      | none => p
    else p

/-- Embeds `AdultContentScraper._process_data`: copy, force `age_restriction`, clean
the title, parse the price, coerce the year, and append the content warning. -/
def AdultContentScraper.processData (raw : Record) : Except String Record := do
  let p0 := dictInsert "age_restriction" (Value.s "18+") raw
  let p1 ← adultTitleStep p0
  let p2 ← adultPriceStep p1
  let p3 := yearCoerceStep p2
  return dictInsert "content_warning" (Value.s "Adult content - 18+ only") p3

/-! ## `WikipediaScraper._process_data` (`wikipedia_scraper.py:479-536`) -/

/-- The text fields cleaned at `wikipedia_scraper.py:492`. -/
def wikiTextFields : List String := ["plot", "content", "director", "cast", "producer", "writer"]

/-- The monetary fields parsed at `wikipedia_scraper.py:500`. -/
def wikiMoneyFields : List String := ["box_office", "budget"]

/-- Python `re.sub(r'\s+',' ',v)` then `.replace('\n',' ').strip()`. -/
def cleanWikiText (v : String) : String :=
  pyStrip (newlinesToSpaces (collapseWs v))

/-- One iteration of the text-field loop. -/
def wikiTextStep (p : Record) (field : String) : Except String Record :=
  match p.lookup field with
  | none => Except.ok p
  | some v =>
    if truthy v then
      match v with
      | Value.s t => Except.ok (dictInsert field (Value.s (cleanWikiText t)) p)
      | _ => Except.error "TypeError: expected string or bytes-like object"
    else Except.ok p

/-- One iteration of the monetary-field loop: first number token, commas
stripped, `float`-parsed (a `ValueError` is caught and skips the field), then
scaled by the million/billion suffix found in the lowercased original text. -/
def wikiMoneyStep (p : Record) (field : String) : Except String Record :=
  match p.lookup field with
  | none => Except.ok p
  | some v =>
    if truthy v then
      match v with
      | Value.s value =>
        Except.ok
          (match findNumberToken value with
           | none => p
           | some tok =>
             match pyFloatOfString (stripCommas tok) with
             | none => p
             | some amount =>
               let scaled :=
                 if strContains (strLower value) "million" then amount * 1000000
                 else if strContains (strLower value) "billion" then amount * 1000000000
                 else amount
               dictInsert (field ++ "_numeric") (Value.q scaled) p)
      | _ => Except.error "TypeError: expected string or bytes-like object"
    else Except.ok p

/-- The runtime block (`wikipedia_scraper.py:522-527`). -/
def wikiRuntimeStep (p : Record) : Except String Record :=
  match p.lookup "runtime" with
  | none => Except.ok p
  | some v =>
    if truthy v then
      match v with
      | Value.s rt =>
        Except.ok
          (match findRuntimeMinutes rt with
           | some m => dictInsert "runtime_minutes" (Value.i (Int.ofNat m)) p
           | none => p)
      | _ => Except.error "TypeError: expected string or bytes-like object"
    else Except.ok p

/-- Embeds `WikipediaScraper._process_data`: text cleanup, monetary parsing, runtime
extraction, year coercion, in source order. -/
def WikipediaScraper.processData (raw : Record) : Except String Record := do
  let p1 ← wikiTextFields.foldlM wikiTextStep raw
  let p2 ← wikiMoneyFields.foldlM wikiMoneyStep p1
  let p3 ← wikiRuntimeStep p2
  return yearCoerceStep p3

/-- Total-function view of an `Except`-valued computation (used to state
concrete evaluations without an equality instance on `Except`). -/
def okPart (e : Except String Record) : Option Record :=
  match e with
  | Except.ok r => some r
  | Except.error _ => none

/-! ## Crawl run lifecycle (`base_scraper.py:139-225`) -/

/-- One row of the append-only `scraping_logs` table
(`_log_scraping_activity`, `base_scraper.py:139-160`); `errors` is
`json.dumps(errors) if errors else None`, so an empty error list is stored as
NULL. -/
structure LogRow where
  targetId : Nat
  status : String
  pagesScraped : Nat
  recordsExtracted : Nat
  errors : Option (List String)
  startedAt : Nat
  completedAt : Nat
deriving DecidableEq

/-- The dictionary `run()` returns to its caller (`base_scraper.py:218-225`). -/
structure RunResult where
  target : String
  status : String
  pagesScraped : Nat
  recordsExtracted : Nat
  errors : List String
  duration : Nat
deriving DecidableEq

/-- The database state a crawl pass touches: the scraped-record table, the
log table, and this target's `last_scraped` column. -/
structure CrawlState where
  table : List Row
  logs : List LogRow
  lastScraped : Option Nat
deriving DecidableEq

/-- Embeds `BaseScraper.run` (`base_scraper.py:186-225`).

`outcome` is what `self.scrape()` does: `.ok stats` with the returned dict
(read back with `result.get('pages_scraped', 0)` / `.get('records_extracted', 0)`),
or `.error msg` for an uncaught exception.  `tableAfter` is the record table
as `scrape` left it — its per-record saves persist whether or not the pass
later fails.  `instPages` and `instRecords` are the subclass instance
counters (`self.pages_scraped` / `self.records_extracted`, see
`wikipedia_scraper.py:22-26`) at the moment `scrape` ended; `run` never
reads them, which is exactly what claims about the failure path exercise.
On success `last_scraped` is refreshed; on failure it is left alone; the
`finally` block writes exactly one log row either way. -/
def BaseScraper.run (targetId : Nat) (targetName : String)
    (startTime endTime : Nat) (instPages instRecords : Nat)
    (tableAfter : List Row) (outcome : Except String (List (String × Nat)))
    (st : CrawlState) : CrawlState × RunResult :=
  match outcome with
  | .ok stats =>
    let pages := (stats.lookup "pages_scraped").getD 0
    let recs := (stats.lookup "records_extracted").getD 0
    ({ table := tableAfter,
       logs := st.logs ++ [⟨targetId, "success", pages, recs, none, startTime, endTime⟩],
       lastScraped := some endTime },
     ⟨targetName, "success", pages, recs, [], endTime - startTime⟩)
  | .error e =>
    ({ table := tableAfter,
       logs := st.logs ++ [⟨targetId, "failed", 0, 0, some [e], startTime, endTime⟩],
       lastScraped := st.lastScraped },
     ⟨targetName, "failed", 0, 0, [e], endTime - startTime⟩)

/-! ## The rate-limiting delay (`base_scraper.py:62-82`) -/

/-- The public names of CPython's built-in `time` module (3.x; platform
extras like `tzset`/`CLOCK_*` constants included where they exist do not
matter — what matters is that `uniform` is not and has never been among
them: `uniform` lives in the `random` module, which `base_scraper.py` never
imports). -/
def timeModuleNames : List String :=
  ["altzone", "asctime", "ctime", "daylight", "get_clock_info", "gmtime",
   "localtime", "mktime", "monotonic", "monotonic_ns", "perf_counter",
   "perf_counter_ns", "process_time", "process_time_ns", "sleep", "strftime",
   "strptime", "struct_time", "thread_time", "thread_time_ns", "time",
   "time_ns", "timezone", "tzname", "tzset"]

/-- Python attribute lookup on the `time` module: `AttributeError` for any
name the module does not define. -/
def timeGetattr (attr : String) : Except String String :=
  if timeModuleNames.contains attr then Except.ok attr
  else Except.error ("AttributeError: module \x27time\x27 has no attribute \x27" ++ attr ++ "\x27")

/-- The rate-limiting step of `BaseScraper._get_soup`
(`base_scraper.py:72-74`): `delay = time.uniform(self.min_delay,
self.max_delay)` followed by `time.sleep(delay)`.  The `ok` branch would
yield a uniform draw from `[minDelay, maxDelay]` and sleep for it (the draw
itself is irrelevant here because the branch is unreachable: the attribute
lookup fails first). -/
def BaseScraper.getSoupDelay (minDelay maxDelay : Rat) : Except String Rat :=
  match timeGetattr "uniform" with
  | Except.ok _ => Except.ok minDelay
  | Except.error e => Except.error e

/-! ## Sample store rows used by concrete checks -/

/-- A stored film-details row as the Wikipedia scraper would have left it. -/
def titanicStoredRow : Row :=
  { sourceSite := "Wikipedia", movieTitle := "TITANIC", year := some 1997,
    dataType := "film_details", rawData := [],
    processedData := [("director", Value.s "James Cameron")], dataHash := [],
    scrapedAt := 7 }

/-- A stored row whose title properly contains the query "Titanic". -/
def titanicSequelRow : Row :=
  { sourceSite := "Amazon", movieTitle := "Titanic II", year := none,
    dataType := "film_details", rawData := [], processedData := [],
    dataHash := [], scrapedAt := 5 }

/-! ## Helper lemmas -/

theorem lookup_cons_eq_ite (k0 k' : String) (v0 : Value) (tl : Record) :
    List.lookup k' ((k0, v0) :: tl) = if k' = k0 then some v0 else tl.lookup k' := by
  rw [List.lookup_cons]
  by_cases h : k' = k0
  · simp [h]
  · rw [beq_false_of_ne h]
    simp [h]

theorem lookup_dictInsert (k k' : String) (v : Value) (r : Record) :
    (dictInsert k v r).lookup k' = if k' = k then some v else r.lookup k' := by
  induction r with
  | nil => by_cases h : k' = k <;> simp [dictInsert, lookup_cons_eq_ite, h]
  | cons hd tl ih =>
    obtain ⟨k0, v0⟩ := hd
    by_cases hk : k0 = k
    · subst hk
      by_cases h : k' = k0 <;> simp [dictInsert, lookup_cons_eq_ite, h]
    · by_cases h : k' = k0
      · subst h
        simp [dictInsert, lookup_cons_eq_ite, hk, Ne.symm hk]
      · simp [dictInsert, lookup_cons_eq_ite, hk, h, ih]

theorem lookup_eq_of_perm (k : String) {r1 r2 : Record} (h : r1.Perm r2)
    (nd : (r1.map Prod.fst).Nodup) : r1.lookup k = r2.lookup k := by
  induction h with
  | nil => rfl
  | cons x h ih =>
    obtain ⟨k0, v0⟩ := x
    by_cases hk : k = k0
    · simp [lookup_cons_eq_ite, hk]
    · simp only [List.map_cons, List.nodup_cons] at nd
      simp [lookup_cons_eq_ite, hk, ih nd.2]
  | swap x y l =>
    obtain ⟨ka, va⟩ := x
    obtain ⟨kb, vb⟩ := y
    simp only [List.map_cons, List.nodup_cons, List.mem_cons] at nd
    have hab : kb ≠ ka := fun hcontra => nd.1 (Or.inl hcontra)
    by_cases h1 : k = kb
    · subst h1
      simp [lookup_cons_eq_ite, hab]
    · by_cases h2 : k = ka <;> simp [lookup_cons_eq_ite, h1, h2, Ne.symm hab]
  | trans h1 h2 ih1 ih2 =>
    have nd2 := ((h1.map Prod.fst).nodup_iff).mp nd
    exact (ih1 nd).trans (ih2 nd2)

theorem sortedKeys_eq_of_perm {r1 r2 : Record} (h : r1.Perm r2) :
    sortedKeys r1 = sortedKeys r2 := by
  apply List.eq_of_perm_of_sorted (r := (· ≤ ·))
  · exact (List.perm_insertionSort _ _).trans
      (((h.map Prod.fst).dedup).trans (List.perm_insertionSort _ _).symm)
  · exact List.sorted_insertionSort _ _
  · exact List.sorted_insertionSort _ _

theorem mem_sortedKeys {k : String} {r : Record} :
    k ∈ sortedKeys r ↔ k ∈ r.map Prod.fst := by
  unfold sortedKeys
  rw [List.mem_insertionSort, List.mem_dedup]

theorem nodup_sortedKeys (r : Record) : (sortedKeys r).Nodup :=
  ((List.perm_insertionSort _ _).nodup_iff).mpr (List.nodup_dedup _)

theorem lookup_none_of_key_not_mem {r : Record} {a : String}
    (h : a ∉ r.map Prod.fst) : r.lookup a = none := by
  rw [List.lookup_eq_none_iff]
  intro p hp
  have hmem : p.1 ∈ r.map Prod.fst := List.mem_map_of_mem Prod.fst hp
  exact bne_iff_ne.mpr fun hc => h (by rwa [hc])

theorem lookup_map_graph (ks : List String) (f : String → Option Value) (a : String) :
    (ks.map fun k => (k, f k)).lookup a = if a ∈ ks then some (f a) else none := by
  induction ks with
  | nil => simp
  | cons k0 t ih =>
    by_cases h : a = k0
    · subst h
      simp [List.lookup_cons]
    · rw [List.map_cons, List.lookup_cons, beq_false_of_ne h]
      simp [h, ih]

theorem lookup_contentHash (r : Record) (a : String) :
    (contentHash r).lookup a = if a ∈ r.map Prod.fst then some (r.lookup a) else none := by
  unfold contentHash
  rw [lookup_map_graph]
  by_cases h : a ∈ r.map Prod.fst
  · simp [h, mem_sortedKeys.mpr h]
  · have hs : a ∉ sortedKeys r := fun hc => h (mem_sortedKeys.mp hc)
    simp [h, hs]

theorem keys_contentHash (r : Record) :
    (contentHash r).map Prod.fst = sortedKeys r := by
  simp [contentHash, List.map_map, Function.comp_def]

theorem lookup_eq_of_contentHash_eq {r1 r2 : Record}
    (h : contentHash r1 = contentHash r2) (a : String) :
    r1.lookup a = r2.lookup a := by
  have hkeys : sortedKeys r1 = sortedKeys r2 := by
    rw [← keys_contentHash, ← keys_contentHash, h]
  have h1 := lookup_contentHash r1 a
  have h2 := lookup_contentHash r2 a
  by_cases hm : a ∈ r1.map Prod.fst
  · have hm2 : a ∈ r2.map Prod.fst :=
      mem_sortedKeys.mp (hkeys ▸ mem_sortedKeys.mpr hm)
    rw [if_pos hm] at h1
    rw [if_pos hm2] at h2
    exact Option.some.inj (h1.symm.trans (h ▸ h2))
  · have hm2 : a ∉ r2.map Prod.fst := fun hc =>
      hm (mem_sortedKeys.mp (hkeys ▸ mem_sortedKeys.mpr hc))
    rw [lookup_none_of_key_not_mem hm, lookup_none_of_key_not_mem hm2]

theorem foldl_pickLater_mem (rows : List Row) :
    ∀ (acc : Option Row) (r : Row), rows.foldl pickLater acc = some r →
      r ∈ rows ∨ acc = some r := by
  induction rows with
  | nil => intro acc r h; exact Or.inr h
  | cons x t ih =>
    intro acc r h
    rcases ih (pickLater acc x) r h with hmem | hacc
    · exact Or.inl (List.mem_cons_of_mem x hmem)
    · cases acc with
      | none =>
        simp [pickLater] at hacc
        exact Or.inl (hacc ▸ List.mem_cons_self x t)
      | some b =>
        by_cases hlt : b.scrapedAt < x.scrapedAt
        · simp [pickLater, hlt] at hacc
          exact Or.inl (hacc ▸ List.mem_cons_self x t)
        · simp [pickLater, hlt] at hacc
          exact Or.inr (congrArg some hacc)

theorem foldl_pickLater_max (rows : List Row) :
    ∀ (acc : Option Row) (r : Row), rows.foldl pickLater acc = some r →
      (∀ x ∈ rows, x.scrapedAt ≤ r.scrapedAt) ∧
      (∀ b, acc = some b → b.scrapedAt ≤ r.scrapedAt) := by
  induction rows with
  | nil =>
    intro acc r h
    refine ⟨by simp, fun b hb => ?_⟩
    rw [List.foldl_nil] at h
    rw [hb] at h
    exact le_of_eq (congrArg Row.scrapedAt (Option.some.inj h))
  | cons x t ih =>
    intro acc r h
    obtain ⟨ht, hacc'⟩ := ih (pickLater acc x) r h
    have hx : x.scrapedAt ≤ r.scrapedAt := by
      cases acc with
      | none => exact hacc' x rfl
      | some b =>
        by_cases hlt : b.scrapedAt < x.scrapedAt
        · exact hacc' x (by simp [pickLater, hlt])
        · exact le_trans (le_of_not_lt hlt) (hacc' b (by simp [pickLater, hlt]))
    refine ⟨fun y hy => ?_, fun b hb => ?_⟩
    · rcases List.mem_cons.mp hy with rfl | hyt
      · exact hx
      · exact ht y hyt
    · subst hb
      by_cases hlt : b.scrapedAt < x.scrapedAt
      · exact le_trans (le_of_lt hlt) hx
      · exact hacc' b (by simp [pickLater, hlt])

theorem latestBy_spec {rows : List Row} {r : Row} (h : latestBy rows = some r) :
    r ∈ rows ∧ ∀ x ∈ rows, x.scrapedAt ≤ r.scrapedAt := by
  refine ⟨?_, (foldl_pickLater_max rows none r h).1⟩
  rcases foldl_pickLater_mem rows none r h with hmem | hacc
  · exact hmem
  · exact absurd hacc (by simp)

theorem foldl_pickLater_ne_none (rows : List Row) :
    ∀ (b : Row), rows.foldl pickLater (some b) ≠ none := by
  induction rows with
  | nil => intro b h; exact Option.noConfusion h
  | cons x t ih =>
    intro b
    by_cases hlt : b.scrapedAt < x.scrapedAt <;> simp [pickLater, hlt] <;> exact ih _

theorem latestBy_eq_none {rows : List Row} (h : latestBy rows = none) : rows = [] := by
  cases rows with
  | nil => rfl
  | cons x t => exact absurd h (by simpa [latestBy, pickLater] using foldl_pickLater_ne_none t x)

theorem lookup_foldl_dictInsert (l : List (String × Value)) :
    ∀ (acc : Record) (k : String),
      (l.foldl (fun a kv => dictInsert kv.1 kv.2 a) acc).lookup k =
        ((l.reverse.lookup k).or (acc.lookup k)) := by
  induction l with
  | nil => intro acc k; simp
  | cons kv t ih =>
    obtain ⟨k0, v0⟩ := kv
    intro acc k
    rw [List.foldl_cons, ih, List.reverse_cons, List.lookup_append, lookup_dictInsert]
    by_cases h : k = k0
    · subst h
      cases htl : t.reverse.lookup k <;> simp [htl, lookup_cons_eq_ite, Option.or]
    · cases htl : t.reverse.lookup k <;>
        simp [htl, lookup_cons_eq_ite, h, Option.or]

theorem lookup_dictFromPairs (pairs : List (String × Value)) (k : String) :
    (dictFromPairs pairs).lookup k = pairs.reverse.lookup k := by
  unfold dictFromPairs
  rw [lookup_foldl_dictInsert]
  simp

theorem omdbScrapedResult_source (row : Row)
    (h : row.processedData.lookup "source" = none) :
    (omdbScrapedResult row).lookup "source" =
      some (Value.s ("Scraped from " ++ row.sourceSite)) := by
  have hrev : (row.processedData.reverse).lookup "source" = none := by
    rw [List.lookup_eq_none_iff] at h ⊢
    intro p hp
    exact h p (List.mem_reverse.mp hp)
  unfold omdbScrapedResult
  rw [lookup_dictFromPairs]
  simp [List.reverse_append, List.lookup_append, hrev, lookup_cons_eq_ite, Option.or]

/-! ## Claim theorems -/

/-- C5: for all RawRecords with identical field values regardless of key
insertion order (i.e. related by a permutation; Python dicts have no
duplicate keys), the content hash computed at `base_scraper.py:94-96` from
the key-sorted canonicalized record is the same. -/
theorem contentHash_key_order_independent (r1 r2 : Record)
    (hperm : r1.Perm r2) (hnd : (r1.map Prod.fst).Nodup) :
    contentHash r1 = contentHash r2 := by
  unfold contentHash
  rw [sortedKeys_eq_of_perm hperm]
  apply List.map_congr_left
  intro k _
  exact congrArg (fun v => (k, v)) (lookup_eq_of_perm k hperm hnd)

/-- Witness for C5 at a concrete pair of key-reordered records. -/
theorem contentHash_key_order_independent_witness :
    ([("title", Value.s "Titanic"), ("year", Value.i 1997)] : Record).Perm
        [("year", Value.i 1997), ("title", Value.s "Titanic")] ∧
    (([("title", Value.s "Titanic"), ("year", Value.i 1997)] : Record).map Prod.fst).Nodup ∧
    contentHash [("title", Value.s "Titanic"), ("year", Value.i 1997)] =
      contentHash [("year", Value.i 1997), ("title", Value.s "Titanic")] :=
  ⟨by decide, by decide,
    contentHash_key_order_independent _ _ (by decide) (by decide)⟩

/-- C4: upserting the same RawRecord twice (`base_scraper.py:101-116`,
`ON CONFLICT (source_site, movie_title, data_type, data_hash) DO UPDATE SET
scraped_at = CURRENT_TIMESTAMP`) leaves exactly one stored row, the second
upsert only refreshing `scraped_at`; upserting a record that differs in any
field value hits a different content hash and therefore inserts a second,
distinct row. -/
theorem saveToDatabase_upsert_semantics (site : String) (process : Record → Record)
    (t1 t2 : Nat) (d d2 : Record) (f : String)
    (hchanged : d.lookup f ≠ d2.lookup f) :
    (BaseScraper.saveToDatabase site process t2
        (BaseScraper.saveToDatabase site process t1 [] d) d =
      (BaseScraper.saveToDatabase site process t1 [] d).map
        (fun r => if rowKey r = (site, titleOf d, dataTypeOf d, contentHash d)
                  then { r with scrapedAt := t2 } else r)) ∧
    (BaseScraper.saveToDatabase site process t2
        (BaseScraper.saveToDatabase site process t1 [] d) d).length = 1 ∧
    (BaseScraper.saveToDatabase site process t2
        (BaseScraper.saveToDatabase site process t1 [] d) d2).length = 2 := by
  have hhash : contentHash d ≠ contentHash d2 := fun hc =>
    hchanged (lookup_eq_of_contentHash_eq hc f)
  refine ⟨?_, ?_, ?_⟩ <;>
    simp [BaseScraper.saveToDatabase, rowKey, Prod.mk.injEq, hhash]

/-- Witness for C4: storing the same Titanic record twice then a variant with
one extra field. -/
theorem saveToDatabase_upsert_semantics_witness :
    (([("title", Value.s "Titanic")] : Record).lookup "gross" ≠
      ([("title", Value.s "Titanic"), ("gross", Value.s "$2.2 billion")] : Record).lookup "gross") ∧
    ((BaseScraper.saveToDatabase "Wikipedia Film Hub" id 2
        (BaseScraper.saveToDatabase "Wikipedia Film Hub" id 1 [] [("title", Value.s "Titanic")])
        [("title", Value.s "Titanic")]).length = 1 ∧
     (BaseScraper.saveToDatabase "Wikipedia Film Hub" id 2
        (BaseScraper.saveToDatabase "Wikipedia Film Hub" id 1 [] [("title", Value.s "Titanic")])
        [("title", Value.s "Titanic"), ("gross", Value.s "$2.2 billion")]).length = 2) :=
  ⟨by decide,
    ⟨(saveToDatabase_upsert_semantics "Wikipedia Film Hub" id 1 2
        [("title", Value.s "Titanic")]
        [("title", Value.s "Titanic"), ("gross", Value.s "$2.2 billion")]
        "gross" (by decide)).2.1,
     (saveToDatabase_upsert_semantics "Wikipedia Film Hub" id 1 2
        [("title", Value.s "Titanic")]
        [("title", Value.s "Titanic"), ("gross", Value.s "$2.2 billion")]
        "gross" (by decide)).2.2⟩⟩

/-- C2: in `BaseScraper.run` (`base_scraper.py:186-225`), a pass whose
extractor raises ends with status `'failed'`, leaves `last_scraped`
untouched, records a non-empty error list, and appends exactly one CrawlLog
row; a pass whose extractor returns normally ends with status `'success'`,
refreshes `last_scraped`, and also appends exactly one log row. -/
theorem run_logs_once_and_updates_timestamp_only_on_success
    (targetId : Nat) (name : String) (t0 t1 instPages instRecords : Nat)
    (tableAfter : List Row) (outcome : Except String (List (String × Nat)))
    (st : CrawlState) :
    (∀ e, outcome = Except.error e →
      (BaseScraper.run targetId name t0 t1 instPages instRecords tableAfter outcome st).2.status
          = "failed" ∧
      (BaseScraper.run targetId name t0 t1 instPages instRecords tableAfter outcome st).1.lastScraped
          = st.lastScraped ∧
      (BaseScraper.run targetId name t0 t1 instPages instRecords tableAfter outcome st).2.errors
          ≠ [] ∧
      (BaseScraper.run targetId name t0 t1 instPages instRecords tableAfter outcome st).1.logs
          = st.logs ++ [⟨targetId, "failed", 0, 0, some [e], t0, t1⟩] ∧
      (BaseScraper.run targetId name t0 t1 instPages instRecords tableAfter outcome st).1.logs.length
          = st.logs.length + 1) ∧
    (∀ stats, outcome = Except.ok stats →
      (BaseScraper.run targetId name t0 t1 instPages instRecords tableAfter outcome st).2.status
          = "success" ∧
      (BaseScraper.run targetId name t0 t1 instPages instRecords tableAfter outcome st).1.lastScraped
          = some t1 ∧
      (BaseScraper.run targetId name t0 t1 instPages instRecords tableAfter outcome st).1.logs
          = st.logs ++ [⟨targetId, "success", (stats.lookup "pages_scraped").getD 0,
                         (stats.lookup "records_extracted").getD 0, none, t0, t1⟩] ∧
      (BaseScraper.run targetId name t0 t1 instPages instRecords tableAfter outcome st).1.logs.length
          = st.logs.length + 1) := by
  constructor
  · intro e he
    subst he
    simp [BaseScraper.run]
  · intro stats hs
    subst hs
    simp [BaseScraper.run]

/-- Witness for C2: one failing pass and one successful pass on concrete data. -/
theorem run_logs_once_and_updates_timestamp_only_on_success_witness :
    ((BaseScraper.run 1 "Wikipedia Film Hub" 10 20 3 4 []
        (Except.error "boom") ⟨[], [], some 5⟩).2.status = "failed" ∧
     (BaseScraper.run 1 "Wikipedia Film Hub" 10 20 3 4 []
        (Except.error "boom") ⟨[], [], some 5⟩).1.lastScraped = some 5 ∧
     (BaseScraper.run 1 "Wikipedia Film Hub" 10 20 3 4 []
        (Except.error "boom") ⟨[], [], some 5⟩).1.logs.length = 1) ∧
    ((BaseScraper.run 1 "Wikipedia Film Hub" 10 20 3 4 []
        (Except.ok [("pages_scraped", 3), ("records_extracted", 4)]) ⟨[], [], some 5⟩).2.status
        = "success" ∧
     (BaseScraper.run 1 "Wikipedia Film Hub" 10 20 3 4 []
        (Except.ok [("pages_scraped", 3), ("records_extracted", 4)]) ⟨[], [], some 5⟩).1.lastScraped
        = some 20 ∧
     (BaseScraper.run 1 "Wikipedia Film Hub" 10 20 3 4 []
        (Except.ok [("pages_scraped", 3), ("records_extracted", 4)]) ⟨[], [], some 5⟩).1.logs.length
        = 1) := by
  have hf := (run_logs_once_and_updates_timestamp_only_on_success 1 "Wikipedia Film Hub"
    10 20 3 4 [] (Except.error "boom") ⟨[], [], some 5⟩).1 "boom" rfl
  have hs := (run_logs_once_and_updates_timestamp_only_on_success 1 "Wikipedia Film Hub"
    10 20 3 4 [] (Except.ok [("pages_scraped", 3), ("records_extracted", 4)])
    ⟨[], [], some 5⟩).2 [("pages_scraped", 3), ("records_extracted", 4)] rfl
  exact ⟨⟨hf.1, hf.2.1, by rw [hf.2.2.2.2]; rfl⟩, ⟨hs.1, hs.2.1, by rw [hs.2.2.2]; rfl⟩⟩

/-- C10: (implicit): when `scrape()` raises, both the CrawlLog row and the
dict returned by `run()` report zero `pages_scraped`/`records_extracted` —
whatever the subclass instance counters reached and whatever records were
already persisted — because `run()` reads its counters only from `scrape()`'s
return value (`base_scraper.py:193-216`). -/
theorem run_failure_reports_zero_counters
    (targetId : Nat) (name : String) (t0 t1 instPages instRecords : Nat)
    (tableAfter : List Row) (outcome : Except String (List (String × Nat)))
    (st : CrawlState) (e : String) (h : outcome = Except.error e) :
    (BaseScraper.run targetId name t0 t1 instPages instRecords tableAfter outcome st).1.logs
        = st.logs ++ [⟨targetId, "failed", 0, 0, some [e], t0, t1⟩] ∧
    (BaseScraper.run targetId name t0 t1 instPages instRecords tableAfter outcome st).2.pagesScraped
        = 0 ∧
    (BaseScraper.run targetId name t0 t1 instPages instRecords tableAfter outcome st).2.recordsExtracted
        = 0 ∧
    (BaseScraper.run targetId name t0 t1 instPages instRecords tableAfter outcome st).1.table
        = tableAfter := by
  subst h
  simp [BaseScraper.run]

/-- Witness for C10: the extractor had fetched 7 pages, persisted a row and
counted 9 records when it raised; the log row and result still say 0/0. -/
theorem run_failure_reports_zero_counters_witness :
    (BaseScraper.run 2 "Box Office" 10 20 7 9
        [⟨"Box Office", "Titanic", some 1997, "box_office", [], [], [], 11⟩]
        (Except.error "mid-way crash") ⟨[], [], none⟩).1.logs
      = [⟨2, "failed", 0, 0, some ["mid-way crash"], 10, 20⟩] ∧
    (BaseScraper.run 2 "Box Office" 10 20 7 9
        [⟨"Box Office", "Titanic", some 1997, "box_office", [], [], [], 11⟩]
        (Except.error "mid-way crash") ⟨[], [], none⟩).2.pagesScraped = 0 ∧
    (BaseScraper.run 2 "Box Office" 10 20 7 9
        [⟨"Box Office", "Titanic", some 1997, "box_office", [], [], [], 11⟩]
        (Except.error "mid-way crash") ⟨[], [], none⟩).2.recordsExtracted = 0 := by
  have h := run_failure_reports_zero_counters 2 "Box Office" 10 20 7 9
    [⟨"Box Office", "Titanic", some 1997, "box_office", [], [], [], 11⟩]
    (Except.error "mid-way crash") ⟨[], [], none⟩ "mid-way crash" rfl
  exact ⟨by rw [h.1]; rfl, h.2.1, h.2.2.1⟩

/-- C3 is wrong about the code: `BaseScraper._get_soup`
(`base_scraper.py:72-74`) computes its randomized delay with
`time.uniform(...)`, but Python's `time` module has no `uniform` attribute
(the function lives in `random`, which `base_scraper.py` never imports), so
the delay step raises `AttributeError` on every call instead of sleeping —
the spec's uniformly-drawn, never-failing delay is the evident intent and
the code a slip. -/
theorem getSoupDelay_always_raises (minDelay maxDelay : Rat) :
    BaseScraper.getSoupDelay minDelay maxDelay =
      Except.error "AttributeError: module \x27time\x27 has no attribute \x27uniform\x27" := rfl

theorem adultTitleStep_preserves {p q : Record} (h : adultTitleStep p = Except.ok q)
    (k : String) (hk : k ≠ "title") : q.lookup k = p.lookup k := by
  unfold adultTitleStep at h
  repeat' split at h
  all_goals first
    | exact Except.noConfusion h
    | (simp only [Except.ok.injEq] at h
       rw [← h, lookup_dictInsert, if_neg hk])
    | (simp only [Except.ok.injEq] at h
       rw [← h])

theorem adultPriceStep_preserves {p q : Record} (h : adultPriceStep p = Except.ok q)
    (k : String) (hk : k ≠ "price_numeric") : q.lookup k = p.lookup k := by
  unfold adultPriceStep at h
  repeat' split at h
  all_goals first
    | exact Except.noConfusion h
    | (simp only [Except.ok.injEq] at h
       rw [← h, lookup_dictInsert, if_neg hk])
    | (simp only [Except.ok.injEq] at h
       rw [← h])

theorem yearCoerceStep_preserves (p : Record) (k : String) (hk : k ≠ "year") :
    (yearCoerceStep p).lookup k = p.lookup k := by
  unfold yearCoerceStep
  repeat' split
  all_goals first
    | rfl
    | rw [lookup_dictInsert, if_neg hk]

/-- C8: every record the adult-content `_process_data`
(`adult_content_scraper.py:348-390`) produces carries
`age_restriction == "18+"` and the non-empty content warning, whatever the
raw input contained. -/
theorem processAdult_always_tags (raw p : Record)
    (h : AdultContentScraper.processData raw = Except.ok p) :
    p.lookup "age_restriction" = some (Value.s "18+") ∧
    ∃ w, p.lookup "content_warning" = some (Value.s w) ∧ w ≠ "" := by
  have h' : (adultTitleStep (dictInsert "age_restriction" (Value.s "18+") raw)).bind
      (fun p1 => (adultPriceStep p1).bind (fun p2 =>
        Except.ok (dictInsert "content_warning" (Value.s "Adult content - 18+ only")
          (yearCoerceStep p2)))) = Except.ok p := h
  cases h1 : adultTitleStep (dictInsert "age_restriction" (Value.s "18+") raw) with
  | error e =>
    rw [h1] at h'
    simp only [Except.bind] at h'
    exact Except.noConfusion h'
  | ok p1 =>
    rw [h1] at h'
    simp only [Except.bind] at h'
    cases h2 : adultPriceStep p1 with
    | error e =>
      rw [h2] at h'
      simp only [Except.bind] at h'
      exact Except.noConfusion h'
    | ok p2 =>
      rw [h2] at h'
      simp only [Except.bind, Except.ok.injEq] at h'
      subst h'
      constructor
      · rw [lookup_dictInsert,
          if_neg (by decide : ("age_restriction" : String) ≠ "content_warning")]
        rw [yearCoerceStep_preserves p2 _ (by decide)]
        rw [adultPriceStep_preserves h2 _ (by decide)]
        rw [adultTitleStep_preserves h1 _ (by decide)]
        rw [lookup_dictInsert, if_pos rfl]
      · exact ⟨"Adult content - 18+ only",
          by rw [lookup_dictInsert, if_pos rfl], by decide⟩

/-- Witness for C8: a record with neither field present gains both. -/
theorem processAdult_always_tags_witness :
    AdultContentScraper.processData [("title", Value.s "Movie")] =
      Except.ok [("title", Value.s "Movie"), ("age_restriction", Value.s "18+"),
                 ("content_warning", Value.s "Adult content - 18+ only")] ∧
    ([("title", Value.s "Movie"), ("age_restriction", Value.s "18+"),
      ("content_warning", Value.s "Adult content - 18+ only")] : Record).lookup "age_restriction"
        = some (Value.s "18+") ∧
    (∃ w, ([("title", Value.s "Movie"), ("age_restriction", Value.s "18+"),
      ("content_warning", Value.s "Adult content - 18+ only")] : Record).lookup "content_warning"
        = some (Value.s w) ∧ w ≠ "") := by
  have hrun : AdultContentScraper.processData [("title", Value.s "Movie")] =
      Except.ok [("title", Value.s "Movie"), ("age_restriction", Value.s "18+"),
                 ("content_warning", Value.s "Adult content - 18+ only")] := rfl
  have h := processAdult_always_tags [("title", Value.s "Movie")] _ hrun
  exact ⟨hrun, h.1, h.2⟩

unseal Rat.mul Rat.add Rat.inv in
/-- C9: the function `WikipediaScraper._process_data`
(`wikipedia_scraper.py:499-527`)
turns `runtime: "142 min"` into `runtime_minutes == 142` and
`budget: "$12 million"` into `budget_numeric == 12_000_000.0`, scaling the
leading numeric value by the `million`/`billion` suffix found in the text. -/
theorem processWikipedia_normalizes_runtime_and_money :
    okPart (WikipediaScraper.processData [("runtime", Value.s "142 min")]) =
      some [("runtime", Value.s "142 min"), ("runtime_minutes", Value.i 142)] ∧
    (okPart (WikipediaScraper.processData [("budget", Value.s "$12 million")])).bind
        (fun p => p.lookup "budget_numeric") = some (Value.q 12000000) ∧
    (okPart (WikipediaScraper.processData [("box_office", Value.s "$3 billion")])).bind
        (fun p => p.lookup "box_office_numeric") = some (Value.q 3000000000) := by
  refine ⟨?_, ?_, ?_⟩ <;> decide

/-- C1: an `OMDBClient` lookup whose live API attempt fails (any caught
exception) or whose client is disabled returns exactly the scraped-data
fallback (`omdb_client.py:37-72`): the most recently scraped matching record
reshaped with provenance `"Scraped from <source_site>"`, or `None`
("not found") — in particular `get_movie_by_imdb_id` returns `None` without a
store query (`omdb_client.py:74-103`).  Both operations are total functions
into `Option`: every exception the source can raise (request errors,
malformed payloads, database errors via `dbOk`) is a modelled input, so no
error reaches the caller.  The provenance hypothesis `hclean` says no stored
payload carries a key `source` of its own — the repository's extractors
never produce one, so the dict-merge cannot mask the provenance tag. -/
theorem omdb_lookup_falls_back_and_never_raises
    (c : OMDBClient) (apiTry apiTry2 : Except String (Option Record)) (dbOk : Bool)
    (table : List Row) (title : String) (year : Option Int)
    (hfail : c.enabled = false ∨ ∃ e, apiTry = Except.error e)
    (hfail2 : c.enabled = false ∨ ∃ e, apiTry2 = Except.error e)
    (hclean : ∀ row ∈ table, row.processedData.lookup "source" = none) :
    OMDBClient.searchMovie c apiTry dbOk table title year
        = omdbGetFromScrapedData c.dbConfig dbOk table title year ∧
    (OMDBClient.searchMovie c apiTry dbOk table title year = none ∨
      ∃ row, row ∈ table ∧ omdbFilter title year row = true ∧
        OMDBClient.searchMovie c apiTry dbOk table title year
            = some (omdbScrapedResult row) ∧
        (omdbScrapedResult row).lookup "source"
            = some (Value.s ("Scraped from " ++ row.sourceSite))) ∧
    OMDBClient.getMovieByImdbId c apiTry2 = none := by
  have hsearch : OMDBClient.searchMovie c apiTry dbOk table title year
      = omdbGetFromScrapedData c.dbConfig dbOk table title year := by
    cases hen : c.enabled with
    | false => simp [OMDBClient.searchMovie, hen]
    | true =>
      rcases hfail with h | ⟨e, he⟩
      · rw [hen] at h
        exact absurd h (by simp)
      · subst he
        simp [OMDBClient.searchMovie, hen]
  have hby : OMDBClient.getMovieByImdbId c apiTry2 = none := by
    cases hen : c.enabled with
    | false => simp [OMDBClient.getMovieByImdbId, hen]
    | true =>
      rcases hfail2 with h | ⟨e, he⟩
      · rw [hen] at h
        exact absurd h (by simp)
      · subst he
        simp [OMDBClient.getMovieByImdbId, hen]
  refine ⟨hsearch, ?_, hby⟩
  rw [hsearch]
  unfold omdbGetFromScrapedData
  by_cases hdb : c.dbConfig = false
  · simp [hdb]
  · rw [Bool.not_eq_false] at hdb
    by_cases hok : dbOk = false
    · simp [hdb, hok]
    · rw [Bool.not_eq_false] at hok
      simp only [hdb, hok, Bool.not_true, Bool.false_eq_true, if_false]
      cases hl : latestBy (table.filter (omdbFilter title year)) with
      | none => exact Or.inl rfl
      | some row =>
        obtain ⟨hmem, _⟩ := latestBy_spec hl
        obtain ⟨hmemT, hfil⟩ := List.mem_filter.mp hmem
        exact Or.inr ⟨row, hmemT, hfil, rfl,
          omdbScrapedResult_source row (hclean row hmemT)⟩

/-- Witness for C1: a disabled client and an erroring API attempt over a
one-row store. -/
theorem omdb_lookup_falls_back_and_never_raises_witness :
    ((mkOMDBClient "" true).enabled = false ∨
      ∃ e, (Except.error "timeout" : Except String (Option Record)) = Except.error e) ∧
    (∀ row ∈ [titanicStoredRow], row.processedData.lookup "source" = none) ∧
    OMDBClient.searchMovie (mkOMDBClient "" true) (Except.error "timeout") true
        [titanicStoredRow] "titanic" none
      = omdbGetFromScrapedData true true [titanicStoredRow] "titanic" none ∧
    OMDBClient.getMovieByImdbId (mkOMDBClient "" true) (Except.error "timeout") = none := by
  have h := omdb_lookup_falls_back_and_never_raises (mkOMDBClient "" true)
    (Except.error "timeout") (Except.error "timeout") true
    [titanicStoredRow] "titanic" none
    (Or.inl rfl) (Or.inl rfl) (by decide)
  exact ⟨Or.inl rfl, by decide, h.1, h.2.2⟩

theorem keepFirstByTitle_subset :
    ∀ (l : List Row) (seen : List String) (r : Row),
      r ∈ keepFirstByTitle l seen → r ∈ l := by
  intro l
  induction l with
  | nil =>
    intro seen r h
    exact absurd h (by simp [keepFirstByTitle])
  | cons x t ih =>
    intro seen r h
    unfold keepFirstByTitle at h
    by_cases hc : seen.contains x.movieTitle = true
    · simp only [hc, if_true] at h
      exact List.mem_cons_of_mem x (ih _ r h)
    · simp only [hc, if_false] at h
      rcases List.mem_cons.mp h with rfl | h2
      · exact List.mem_cons_self _ _
      · exact List.mem_cons_of_mem x (ih _ r h2)

/-- C6 counterexample: the claim says every SourceClient fallback matches
titles by exact case-insensitive equality, but the TMDb fallback
(`tmdb_client.py:248-262`, `movie_title ILIKE '%query%'`) returns the stored
row titled `"Titanic II"` for the query `"Titanic"`, whose titles are not
equal even ignoring case. -/
theorem tmdb_fallback_partial_match_counterexample :
    (tmdbSearchScraped true true [titanicSequelRow] "Titanic" none).map
        (fun r => r.lookup "title")
      = [some (Value.s "Titanic II")] ∧
    strLower "Titanic II" ≠ strLower "Titanic" := by
  constructor <;> decide

/-- C6 (amended): the OMDb and YouTube fallback queries match stored titles
by exact case-insensitive equality — returning the most recently scraped
matching row, with a supplied (truthy) year narrowing the match and an
absent year matching every year — while the TMDb search fallback matches by
case-insensitive substring containment (`ILIKE '%query%'`), partial rather
than exact, keeping the most recent row per title. -/
theorem fallback_title_matching
    (table : List Row) (title q : String) (year : Option Int) :
    (∀ res, omdbGetFromScrapedData true true table title year = some res →
      ∃ row, row ∈ table ∧ omdbFilter title year row = true ∧
        res = omdbScrapedResult row ∧
        strLower row.movieTitle = strLower title ∧
        (∀ y, year = some y → yearTruthy year = true → row.year = some y) ∧
        (∀ row2 ∈ table, omdbFilter title year row2 = true →
          row2.scrapedAt ≤ row.scrapedAt)) ∧
    (omdbGetFromScrapedData true true table title year = none →
      ∀ row ∈ table, omdbFilter title year row = false) ∧
    (∀ row, omdbFilter title none row =
      ((strLower row.movieTitle == strLower title) &&
        omdbDataTypes.contains row.dataType)) ∧
    (∀ res, YouTubeClient.getScrapedTrailer true true table title year = some res →
      ∃ row, row ∈ table ∧ strLower row.movieTitle = strLower title ∧
        (∀ row2 ∈ table, ytFilter title year row2 = true →
          row2.scrapedAt ≤ row.scrapedAt)) ∧
    (∀ res ∈ tmdbSearchScraped true true table q year,
      ∃ row, row ∈ table ∧
        strContains (strLower row.movieTitle) (strLower q) = true ∧
        res = tmdbFormatScrapedResult row) := by
  refine ⟨?_, ?_, ?_, ?_, ?_⟩
  · intro res h
    have h' : (match latestBy (table.filter (omdbFilter title year)) with
        | none => (none : Option Record)
        | some row => some (omdbScrapedResult row)) = some res := h
    cases hl : latestBy (table.filter (omdbFilter title year)) with
    | none =>
      rw [hl] at h'
      exact Option.noConfusion h'
    | some row =>
      rw [hl] at h'
      obtain ⟨hmem, hmax⟩ := latestBy_spec hl
      obtain ⟨hmemT, hfil⟩ := List.mem_filter.mp hmem
      have hfil2 := hfil
      simp only [omdbFilter, Bool.and_eq_true] at hfil2
      obtain ⟨⟨htitle, hyear⟩, hdt⟩ := hfil2
      refine ⟨row, hmemT, hfil, (Option.some.inj h').symm, ?_, ?_, ?_⟩
      · exact eq_of_beq htitle
      · intro y hy hty
        subst hy
        rw [if_pos hty] at hyear
        exact eq_of_beq hyear
      · intro row2 hmem2 hfil2
        exact hmax row2 (List.mem_filter.mpr ⟨hmem2, hfil2⟩)
  · intro h row hmem
    have h' : (match latestBy (table.filter (omdbFilter title year)) with
        | none => (none : Option Record)
        | some row => some (omdbScrapedResult row)) = none := h
    cases hl : latestBy (table.filter (omdbFilter title year)) with
    | some row2 =>
      rw [hl] at h'
      exact Option.noConfusion h'
    | none =>
      have hempty := latestBy_eq_none hl
      by_cases hf : omdbFilter title year row = true
      · exact absurd (hempty ▸ List.mem_filter.mpr ⟨hmem, hf⟩) (List.not_mem_nil row)
      · exact Bool.not_eq_true _ ▸ (Bool.eq_false_iff.mpr hf)
  · intro row
    unfold omdbFilter yearTruthy
    simp
  · intro res h
    have h' : (match latestBy (table.filter (ytFilter title year)) with
        | none => (none : Option Record)
        | some row =>
          match findYouTubeId (pyReprDict row.processedData) with
          | none => none
          | some vid =>
            some (dictFromPairs
              [("source", Value.s ("Scraped from " ++ row.sourceSite)),
               ("video_id", Value.s vid),
               ("title", Value.s (title ++ " - Trailer")),
               ("url", Value.s ("https://www.youtube.com/watch?v=" ++ vid)),
               ("scraped_at", Value.s (toString row.scrapedAt))])) = some res := h
    cases hl : latestBy (table.filter (ytFilter title year)) with
    | none =>
      rw [hl] at h'
      exact Option.noConfusion h'
    | some row =>
      obtain ⟨hmem, hmax⟩ := latestBy_spec hl
      obtain ⟨hmemT, hfil⟩ := List.mem_filter.mp hmem
      have hfil2 := hfil
      simp only [ytFilter, Bool.and_eq_true] at hfil2
      refine ⟨row, hmemT, eq_of_beq hfil2.1.1, ?_⟩
      intro row2 hmem2 hfil2
      exact hmax row2 (List.mem_filter.mpr ⟨hmem2, hfil2⟩)
  · intro res hres
    have h' : res ∈ ((keepFirstByTitle
        (List.insertionSort (fun a b => tmdbLe a b = true)
          (table.filter (tmdbFilter q year))) []).take 20).map
        tmdbFormatScrapedResult := hres
    obtain ⟨row, hrow, hfmt⟩ := List.mem_map.mp h'
    have hrow2 : row ∈ keepFirstByTitle
        (List.insertionSort (fun a b => tmdbLe a b = true)
          (table.filter (tmdbFilter q year))) [] :=
      List.take_subset _ _ hrow
    have hrow3 := keepFirstByTitle_subset _ _ _ hrow2
    have hrow4 : row ∈ table.filter (tmdbFilter q year) :=
      (List.mem_insertionSort _).mp hrow3
    obtain ⟨hmemT, hfil⟩ := List.mem_filter.mp hrow4
    have hfil2 := hfil
    simp only [tmdbFilter, Bool.and_eq_true] at hfil2
    exact ⟨row, hmemT, hfil2.1, hfmt.symm⟩

/-- Witness for C6 (amended): the exact-match branch fires on a case-flipped
title, and the TMDb branch exhibits its substring match concretely. -/
theorem fallback_title_matching_witness :
    omdbGetFromScrapedData true true [titanicStoredRow] "titanic" none
        = some (omdbScrapedResult titanicStoredRow) ∧
    (∃ row, row ∈ [titanicStoredRow] ∧ omdbFilter "titanic" none row = true ∧
      omdbScrapedResult titanicStoredRow = omdbScrapedResult row ∧
      strLower row.movieTitle = strLower "titanic" ∧
      (∀ y, (none : Option Int) = some y → yearTruthy none = true → row.year = some y) ∧
      (∀ row2 ∈ [titanicStoredRow], omdbFilter "titanic" none row2 = true →
        row2.scrapedAt ≤ row.scrapedAt)) ∧
    (∃ row, row ∈ [titanicSequelRow] ∧
      strContains (strLower row.movieTitle) (strLower "Titanic") = true ∧
      tmdbFormatScrapedResult titanicSequelRow = tmdbFormatScrapedResult row) := by
  have h1 : omdbGetFromScrapedData true true [titanicStoredRow] "titanic" none
      = some (omdbScrapedResult titanicStoredRow) := by decide
  have h2 := (fallback_title_matching [titanicStoredRow] "titanic" "Titanic" none).1 _ h1
  have h3 : tmdbFormatScrapedResult titanicSequelRow ∈
      tmdbSearchScraped true true [titanicSequelRow] "Titanic" none := by decide
  have h4 := (fallback_title_matching [titanicSequelRow] "dummy" "Titanic" none).2.2.2.2
    _ h3
  exact ⟨h1, h2, h4⟩

/-- C7: a SourceClient constructed with no credential (empty environment
variables after stripping) is disabled, and none of its lookups can reach
the API branch: each result is the same whatever the API oracle would have
answered — the branch is dead code — and equals the store fallback (or the
bare "not found" for the operations without one). -/
theorem disabled_clients_skip_api
    (hasDb dbOk : Bool) (table : List Row) (title q : String) (year : Option Int)
    (api1 api2 : Except String (Option Record))
    (api3 api4 : Except String (List Record))
    (api5 : Except String (Option String))
    (api6 api7 : Except String (Option Record)) :
    (mkOMDBClient "" hasDb).enabled = false ∧
    OMDBClient.searchMovie (mkOMDBClient "" hasDb) api1 dbOk table title year
      = OMDBClient.searchMovie (mkOMDBClient "" hasDb) api2 dbOk table title year ∧
    OMDBClient.searchMovie (mkOMDBClient "" hasDb) api1 dbOk table title year
      = omdbGetFromScrapedData hasDb dbOk table title year ∧
    OMDBClient.getMovieByImdbId (mkOMDBClient "" hasDb) api1 = none ∧
    OMDBClient.getPoster (mkOMDBClient "" hasDb) api5 = none ∧
    (mkTMDbClient "" "" hasDb).enabled = false ∧
    TMDbClient.searchMovies (mkTMDbClient "" "" hasDb) api3 dbOk table q year
      = TMDbClient.searchMovies (mkTMDbClient "" "" hasDb) api4 dbOk table q year ∧
    TMDbClient.searchMovies (mkTMDbClient "" "" hasDb) api3 dbOk table q year
      = tmdbSearchScraped hasDb dbOk table q year ∧
    TMDbClient.getMovieDetails (mkTMDbClient "" "" hasDb) api6 = none ∧
    (mkYouTubeClient "" hasDb).enabled = false ∧
    YouTubeClient.searchMovieTrailer (mkYouTubeClient "" hasDb) api7 dbOk table title year
      = YouTubeClient.getScrapedTrailer hasDb dbOk table title year :=
  ⟨rfl, rfl, rfl, rfl, rfl, rfl, rfl, rfl, rfl, rfl, rfl⟩
